import Mathlib

/-!
Shallow embedding of `src/rtstest/dothetune.py` (ray-tune-slurm-demo).

The script wires a small convolutional network into Ray Tune:
`ConvNet`, a `train`/`test` loop, a `Trainable` subclass with
`setup`/`step`/`save_checkpoint`/`load_checkpoint`, an Optuna search-space
function `suggest_config`, and a click entry point `main`.

Modelling choices:
* Python floats are modelled as exact rationals (`ℚ`); the decimal
  literals of the source become the corresponding rationals.
* The float-valued numerics that no claim constrains (a forward pass of
  the network, the per-batch gradient update) are universally quantified
  function parameters, so every theorem holds for every instantiation.
* Python exceptions are an explicit `PyErr` error type in `Except`.
* The filesystem seen by `torch.save`/`torch.load` is an association
  list from paths (lists of components) to stored blobs; a later entry
  for the same path is shadowed by an earlier one, matching overwrite.
-/

set_option autoImplicit false

namespace RayTuneSlurmDemo

/-- Python exceptions that this script can surface. -/
inductive PyErr where
  | keyError (key : String)
  | zeroDivisionError
  | isADirectoryError
  | fileNotFoundError
  | runtimeError
deriving DecidableEq

/-- A Python scalar stored in a config dict: an int or a float. -/
inductive PyVal where
  | int (n : Int)
  | float (q : ℚ)
deriving DecidableEq

/-- Reading a config value as a number (`lr`, `momentum`). -/
def PyVal.asRat : PyVal → ℚ
  | .int n => (n : ℚ)
  | .float q => q

/-- Reading a config value as a channel count.  In this script the value
is always a nonnegative `int` (`3`, `6` or `9`); the float branch is
never reached by any run of the program. -/
def PyVal.asNat : PyVal → Nat
  | .int n => n.toNat
  | .float q => q.num.toNat

/-- A hyperparameter configuration dict, keyed by name. -/
abbrev Config := List (String × PyVal)

/-- `ConvNet(nn.Module)`: `conv1 = nn.Conv2d(1, conf_out_channels, 3)`,
`fc = nn.Linear(64 * conf_out_channels, 10)`, plus the stored channel
count.  Parameter tensors are kept as flat lists of rationals; their
shapes are recorded in the state dict, as PyTorch does. -/
structure ConvNet where
  conf_out_channels : Nat
  conv1_weight : List ℚ
  conv1_bias : List ℚ
  fc_weight : List ℚ
  fc_bias : List ℚ
deriving DecidableEq

/-- A serialized parameter state: tensor name ↦ (shape, values), in
insertion order, exactly what `model.state_dict()` produces. -/
abbrev StateDict := List (String × (List Nat × List ℚ))

/-- `model.state_dict()`: `Conv2d(1, c, 3)` has weight shape
`[c, 1, 3, 3]` and bias shape `[c]`; `Linear(64*c, 10)` has weight shape
`[10, 64*c]` and bias shape `[10]`. -/
def ConvNet.state_dict (m : ConvNet) : StateDict :=
  [ ("conv1.weight", ([m.conf_out_channels, 1, 3, 3], m.conv1_weight)),
    ("conv1.bias", ([m.conf_out_channels], m.conv1_bias)),
    ("fc.weight", ([10, 64 * m.conf_out_channels], m.fc_weight)),
    ("fc.bias", ([10], m.fc_bias)) ]

/-- The name/shape skeleton of a state dict entry — what
`load_state_dict` checks for compatibility. -/
def entryMeta (e : String × (List Nat × List ℚ)) : String × List Nat :=
  (e.1, e.2.1)

/-- The values stored under key `k` in a state dict. -/
def getVals (sd : StateDict) (k : String) : List ℚ :=
  match sd.lookup k with
  | some e => e.2
  | none => []

/-- `model.load_state_dict(sd)`: succeeds exactly when the keys and
tensor shapes of `sd` match the model's own architecture, and then
replaces every parameter value; otherwise PyTorch raises a
`RuntimeError` about missing/unexpected keys or size mismatch. -/
def ConvNet.load_state_dict (m : ConvNet) (sd : StateDict) : Except PyErr ConvNet :=
  if sd.map entryMeta = m.state_dict.map entryMeta then
    .ok { m with
          conv1_weight := getVals sd "conv1.weight",
          conv1_bias := getVals sd "conv1.bias",
          fc_weight := getVals sd "fc.weight",
          fc_bias := getVals sd "fc.bias" }
  else
    .error .runtimeError

/-- `ConvNet(conf_out_channels=c)` with freshly initialized parameters,
drawn from an arbitrary source `w` of initial values (PyTorch draws them
randomly; no claim constrains them). -/
def ConvNet.init (conf_out_channels : Nat) (w : Nat → ℚ) : ConvNet :=
  { conf_out_channels := conf_out_channels,
    conv1_weight := (List.range (conf_out_channels * 1 * 3 * 3)).map w,
    conv1_bias := (List.range conf_out_channels).map w,
    fc_weight := (List.range (10 * (64 * conf_out_channels))).map w,
    fc_bias := (List.range 10).map w }

/-- A file path, as a list of components. -/
abbrev FsPath := List String

/-- A blob written by `torch.save`. -/
inductive Blob where
  | stateDict (sd : StateDict)
deriving DecidableEq

/-- The filesystem: path ↦ blob; an earlier entry shadows later ones. -/
abbrev FileSys := List (FsPath × Blob)

/-- `p` is a strict ancestor directory of `q`. -/
def strictAncestor : FsPath → FsPath → Bool
  | [], [] => false
  | [], _ :: _ => true
  | _ :: _, [] => false
  | a :: as, b :: bs => a == b && strictAncestor as bs

/-- `torch.save(obj, path)`. -/
def torch_save (obj : StateDict) (path : FsPath) (fs : FileSys) : FileSys :=
  (path, Blob.stateDict obj) :: fs

/-- `torch.load(path)`: deserializes the blob stored at `path`; raises
`IsADirectoryError` if `path` is a directory, `FileNotFoundError` if
nothing is there. -/
def torch_load (path : FsPath) (fs : FileSys) : Except PyErr StateDict :=
  match fs.lookup path with
  | some (Blob.stateDict sd) => .ok sd
  | none =>
    if fs.any (fun e => strictAncestor path e.1) then .error .isADirectoryError
    else .error .fileNotFoundError

/-- A data loader's yielded batches: each batch is a list of
(input, target-label) pairs, over an abstract input type. -/
abbrev Loader (α : Type) := List (List (α × Nat))

/-- `optim.SGD(...)`, as configured by `setup`. -/
structure SGD where
  lr : ℚ
  momentum : ℚ
deriving DecidableEq

/-- The state a `Trainable` holds after `setup`. -/
structure TrainableState (α : Type) where
  train_loader : Loader α
  test_loader : Loader α
  model : ConvNet
  optimizer : SGD

/-- The body of `train`'s `for` loop (zero_grad, forward, nll_loss,
backward, optimizer.step) is float autograd arithmetic; it is an
uninterpreted per-batch update of (model, optimizer state). -/
def train {α : Type} (batchUpdate : ConvNet × SGD → List (α × Nat) → ConvNet × SGD)
    (model : ConvNet) (optimizer : SGD) (train_loader : Loader α) : ConvNet × SGD :=
  train_loader.foldl batchUpdate (model, optimizer)

/-- The `for batch_idx, (data, target) in enumerate(data_loader)` loop of
`test`, with its early `break` when `batch_idx * len(data) > test_size`:
accumulates (correct, total).  `predict` is the classifier induced by the
model (`torch.max(outputs.data, 1)` over the forward pass). -/
def testLoop {α : Type} (predict : α → Nat) (test_size : Nat) :
    Nat → Nat → Nat → Loader α → Nat × Nat
  | _, correct, total, [] => (correct, total)
  | batch_idx, correct, total, data :: rest =>
    if batch_idx * data.length > test_size then (correct, total)
    else
      testLoop predict test_size (batch_idx + 1)
        (correct + (data.filter (fun s => predict s.1 == s.2)).length)
        (total + data.length) rest

/-- `test(model, data_loader, *, test_size=256)`: runs the bounded
evaluation loop and returns `correct / total` — a `ZeroDivisionError`
when `total` is still `0`. -/
def test {α : Type} (predict : α → Nat) (data_loader : Loader α)
    (test_size : Nat := 256) : Except PyErr ℚ :=
  let r := testLoop predict test_size 0 0 0 data_loader
  if r.2 = 0 then .error .zeroDivisionError
  else .ok ((r.1 : ℚ) / (r.2 : ℚ))

namespace Trainable

/-- `Trainable.setup(config)`: builds the loaders, then
`ConvNet(conf_out_channels=config.get("conf_out_channels", 3))`, then
`optim.SGD(..., lr=config["lr"], momentum=config["momentum"])` — the
subscript lookups raise `KeyError` when the key is absent.  `w` supplies
the random initial parameter values. -/
def setup {α : Type} (train_loader test_loader : Loader α) (w : Nat → ℚ)
    (config : Config) : Except PyErr (TrainableState α) :=
  let model := ConvNet.init ((config.lookup "conf_out_channels").getD (PyVal.int 3)).asNat w
  match config.lookup "lr" with
  | none => .error (.keyError "lr")
  | some lr =>
    match config.lookup "momentum" with
    | none => .error (.keyError "momentum")
    | some momentum =>
      .ok { train_loader := train_loader, test_loader := test_loader,
            model := model,
            optimizer := { lr := lr.asRat, momentum := momentum.asRat } }

/-- `Trainable.step()`: one `train` pass over `train_loader`, then
`test` on `test_loader`, returning `dict(mean_accuracy=acc)` (modelled
as the updated state paired with the returned dict). -/
def step {α : Type} (predict : ConvNet → α → Nat)
    (batchUpdate : ConvNet × SGD → List (α × Nat) → ConvNet × SGD)
    (s : TrainableState α) : Except PyErr (TrainableState α × List (String × ℚ)) :=
  let ms := train batchUpdate s.model s.optimizer s.train_loader
  match test (predict ms.1) s.test_loader with
  | .error e => .error e
  | .ok acc => .ok ({ s with model := ms.1, optimizer := ms.2 }, [("mean_accuracy", acc)])

/-- `Trainable.save_checkpoint(checkpoint_dir)`: writes
`torch.save(self.model.state_dict(), checkpoint_dir / "checkpoint.pth")`
and returns `checkpoint_dir` itself. -/
def save_checkpoint {α : Type} (s : TrainableState α) (checkpoint_dir : FsPath)
    (fs : FileSys) : FileSys × FsPath :=
  let path := checkpoint_dir ++ ["checkpoint.pth"]
  (torch_save s.model.state_dict path fs, checkpoint_dir)

/-- `Trainable.load_checkpoint(checkpoint_path)`:
`self.model.load_state_dict(torch.load(checkpoint_path))`. -/
def load_checkpoint {α : Type} (s : TrainableState α) (checkpoint_path : FsPath)
    (fs : FileSys) : Except PyErr (TrainableState α) :=
  match torch_load checkpoint_path fs with
  | .error e => .error e
  | .ok sd =>
    match s.model.load_state_dict sd with
    | .error e => .error e
    | .ok m => .ok { s with model := m }

end Trainable

/-- One Optuna suggestion made by `suggest_config`. -/
inductive Suggestion where
  | suggest_float (name : String) (low high : ℚ) (logScale : Bool)
  | suggest_categorical (name : String) (choices : List Int)
deriving DecidableEq

/-- `suggest_config(trial)`: `lr` log-uniform on `[1e-10, 1e-1]`,
`momentum` uniform on `[0.1, 0.9]`, `conf_out_channels` in `[3, 6, 9]`. -/
def suggest_config : List Suggestion :=
  [ .suggest_float "lr" 1e-10 1e-1 true,
    .suggest_float "momentum" 0.1 0.9 false,
    .suggest_categorical "conf_out_channels" [3, 6, 9] ]

/-- Minimize or maximize a metric. -/
inductive SearchMode where
  | max
  | min
deriving DecidableEq

/-- `OptunaSearch(suggest_config, metric=..., mode=...)`, possibly
restored with `restore_from_dir`. -/
structure OptunaSearch where
  space : List Suggestion
  metric : String
  mode : SearchMode
  restored_from : Option String
deriving DecidableEq

/-- `ASHAScheduler(metric=..., mode=...)`. -/
structure ASHASchedulerSpec where
  metric : String
  mode : SearchMode
deriving DecidableEq

/-- `tune.TuneConfig(scheduler=..., num_samples=..., search_alg=...)`. -/
structure TuneConfig where
  scheduler : ASHASchedulerSpec
  num_samples : Nat
  search_alg : OptunaSearch
deriving DecidableEq

/-- `RunConfig(...)` as built in `main`: a W&B logger callback, a stop
condition dict, checkpoint-at-end, and the study name. -/
structure RunConfig where
  wandb_project : String
  stop : List (String × Nat)
  checkpoint_at_end : Bool
  name : String
deriving DecidableEq

/-- The arguments passed to `ray.init` when running distributed. -/
structure RayInitArgs where
  address : String
  redis_password : String
  node_ip_address : String
deriving DecidableEq

/-- The `tune.Tuner(...).fit()` call that `main` submits: either the
search-driven run (trainable wrapped in `tune.with_resources`) or the
single fixed-configuration run. -/
inductive RunSpec where
  | tuneRun (resources : List (String × Nat)) (tune_config : TuneConfig)
      (run_config : RunConfig)
  | singleRun (param_space : Config) (run_config : RunConfig)
deriving DecidableEq

/-- What one invocation of `main` does: the optional `ray.init` and the
submitted run. -/
structure MainTrace where
  rayInit : Option RayInitArgs
  run : RunSpec
deriving DecidableEq

/-- The process environment (`os.environ`). -/
abbrev Env := List (String × String)

/-- `os.environ[k]`: raises `KeyError` when absent. -/
def environGet (env : Env) (k : String) : Except PyErr String :=
  match env.lookup k with
  | some v => .ok v
  | none => .error (.keyError k)

/-- Lines 146–157 of `main`: `if "redis_password" in os.environ:` print
`os.environ["ip_head"]` (the first subscript — a `KeyError` here
propagates), split it on `":"` for the node ip, and call `ray.init`. -/
def clusterBootstrap (env : Env) : Except PyErr (Option RayInitArgs) :=
  if (env.lookup "redis_password").isSome then
    match environGet env "ip_head" with
    | .error e => .error e
    | .ok ip_head =>
      match environGet env "redis_password" with
      | .error e => .error e
      | .ok pwd =>
        .ok (some { address := ip_head, redis_password := pwd,
                    node_ip_address := (ip_head.splitOn ":").headD "" })
  else .ok none

/-- The `train_config` dict of `main`:
`dict(lr=1e-10, momentum=0.5, conf_out_channels=9)`. -/
def train_config : Config :=
  [ ("lr", PyVal.float 1e-10),
    ("momentum", PyVal.float 0.5),
    ("conf_out_channels", PyVal.int 9) ]

/-- The `RunConfig` of `main` (study name `"ray-tune-slurm-test"`,
`stop={"training_iteration": 5}`, `checkpoint_at_end=True`). -/
def mainRunConfig : RunConfig :=
  { wandb_project := "ray-tune-slurm-test",
    stop := [("training_iteration", 5)],
    checkpoint_at_end := true,
    name := "ray-tune-slurm-test" }

/-- `main(do_tune, gpu, restore)`: optional distributed bootstrap from
the environment, then either the Optuna/ASHA tuning run over
`tune.with_resources(Trainable, {"gpu": 1 if gpu else 0, "cpu": 1})`
with `num_samples=30`, or the single run with `param_space=train_config`.
The dataset download between the two steps is a no-op for this model. -/
def main (do_tune gpu : Bool) (restore : Option String) (env : Env) :
    Except PyErr MainTrace :=
  match clusterBootstrap env with
  | .error e => .error e
  | .ok ri =>
    if do_tune then
      let optuna_search : OptunaSearch :=
        { space := suggest_config, metric := "mean_accuracy",
          mode := .max, restored_from := restore }
      .ok { rayInit := ri,
            run := .tuneRun [("gpu", if gpu then 1 else 0), ("cpu", 1)]
              { scheduler := { metric := "mean_accuracy", mode := .max },
                num_samples := 30,
                search_alg := optuna_search }
              mainRunConfig }
    else
      .ok { rayInit := ri, run := .singleRun train_config mainRunConfig }

/-- The stop condition of the run `main` submits. -/
def RunSpec.stopCondition : RunSpec → List (String × Nat)
  | .tuneRun _ _ rc => rc.stop
  | .singleRun _ rc => rc.stop

/-- The per-trial resource request declared by the run `main` submits
(`tune.with_resources` is only used in the tuning branch). -/
def RunSpec.resourcesPerTrial : RunSpec → Option (List (String × Nat))
  | .tuneRun res _ _ => some res
  | .singleRun _ _ => none

/-- The run submitted by the `--tune` branch of `main`, as a value. -/
def tuneRunSpec (gpu : Bool) (restore : Option String) : RunSpec :=
  .tuneRun [("gpu", if gpu then 1 else 0), ("cpu", 1)]
    { scheduler := { metric := "mean_accuracy", mode := .max },
      num_samples := 30,
      search_alg := { space := suggest_config, metric := "mean_accuracy",
                      mode := .max, restored_from := restore } }
    mainRunConfig

/-- A concrete `Trainable` state used to evaluate the theorems on
explicit inputs: a 3-channel net with zero-initialized parameters, an
empty train loader, and a one-batch test loader. -/
def demoState : TrainableState Nat :=
  { train_loader := [],
    test_loader := [[(0, 0)]],
    model := ConvNet.init 3 (fun _ => 0),
    optimizer := { lr := 1e-10, momentum := 0.5 } }

/-! ## Helper lemmas about the evaluation loop -/

/-- The running sample total never decreases over the loop. -/
theorem testLoop_total_le {α : Type} (predict : α → Nat) (ts : Nat) (bs : Loader α) :
    ∀ (idx c t : Nat), t ≤ (testLoop predict ts idx c t bs).2 := by
  induction bs with
  | nil => intro idx c t; exact le_refl t
  | cons d rest ih =>
    intro idx c t
    rw [testLoop]
    split
    · exact le_refl t
    · exact le_trans (Nat.le_add_right t d.length) (ih (idx + 1) _ _)

/-- The match count never exceeds the sample total. -/
theorem testLoop_correct_le {α : Type} (predict : α → Nat) (ts : Nat) (bs : Loader α) :
    ∀ (idx c t : Nat), c ≤ t →
      (testLoop predict ts idx c t bs).1 ≤ (testLoop predict ts idx c t bs).2 := by
  induction bs with
  | nil => intro idx c t h; exact h
  | cons d rest ih =>
    intro idx c t h
    rw [testLoop]
    split
    · exact h
    · exact ih (idx + 1) _ _
        (Nat.add_le_add h (List.length_filter_le _ _))

/-- With uniform batch size `b`, the sample total of the loop started at
index `idx` with running total `t ≤ idx * b` stays below
`max t (ts + b)`. -/
theorem testLoop_total_bound {α : Type} (predict : α → Nat) (ts b : Nat) (bs : Loader α) :
    ∀ (idx c t : Nat), (∀ x ∈ bs, x.length = b) → t ≤ idx * b →
      (testLoop predict ts idx c t bs).2 ≤ max t (ts + b) := by
  induction bs with
  | nil => intro idx c t _ _; exact le_max_left _ _
  | cons d rest ih =>
    intro idx c t hb ht
    rw [testLoop]
    split
    · exact le_max_left _ _
    · rename_i hle
      have hd : d.length = b := hb d (List.mem_cons_self d rest)
      have hrest : ∀ x ∈ rest, x.length = b := fun x hx => hb x (List.mem_cons_of_mem d hx)
      have hidx : idx * b ≤ ts := by rw [← hd]; exact Nat.le_of_not_lt hle
      have h1 : t + d.length ≤ (idx + 1) * b := by
        rw [hd, Nat.succ_mul]
        exact Nat.add_le_add ht (le_refl b)
      have h3 : t + d.length ≤ ts + b := by
        rw [hd]
        exact Nat.add_le_add (le_trans ht hidx) (le_refl b)
      calc (testLoop predict ts (idx + 1)
              (c + (d.filter (fun s => predict s.1 == s.2)).length) (t + d.length) rest).2
          ≤ max (t + d.length) (ts + b) := ih (idx + 1) _ _ hrest h1
        _ = ts + b := max_eq_right h3
        _ ≤ max t (ts + b) := le_max_right _ _

/-- A loader all of whose batches are empty leaves both accumulators
untouched. -/
theorem testLoop_all_empty {α : Type} (predict : α → Nat) (ts : Nat) (bs : Loader α) :
    ∀ (idx c t : Nat), (∀ x ∈ bs, x = []) → testLoop predict ts idx c t bs = (c, t) := by
  induction bs with
  | nil => intro idx c t _; rfl
  | cons d rest ih =>
    intro idx c t h
    have hd : d = [] := h d (List.mem_cons_self d rest)
    subst hd
    rw [testLoop]
    rw [if_neg (by simp)]
    simpa using ih (idx + 1) c t (fun x hx => h x (List.mem_cons_of_mem _ hx))

/-- The batch at index 0 is always processed: its length reaches the
final total. -/
theorem testLoop_head_total {α : Type} (predict : α → Nat) (ts : Nat)
    (d : List (α × Nat)) (rest : Loader α) :
    d.length ≤ (testLoop predict ts 0 0 0 (d :: rest)).2 := by
  rw [testLoop]
  rw [if_neg (by simp)]
  simpa using testLoop_total_le predict ts rest 1 _ _

/-! ## Claim theorems -/

/-- Claim C4: the evaluation loop is a bounded-sample accuracy
computation — for every data loader whose batches each contain `b`
samples, `test` stops before processing any batch with
`batch_idx * b > test_size`, so the number of samples entering the
accuracy is at most `test_size + b`, independent of the dataset size. -/
theorem test_bounded_samples {α : Type} (predict : α → Nat) (batches : Loader α)
    (b test_size : Nat) (hb : ∀ x ∈ batches, x.length = b) :
    (testLoop predict test_size 0 0 0 batches).2 ≤ test_size + b := by
  have h := testLoop_total_bound predict test_size b batches 0 0 0 hb (by simp)
  simpa using h

/-- Witness for C4 at a concrete loader of two one-sample batches. -/
theorem test_bounded_samples_witness :
    (testLoop (fun _ : Nat => 0) 256 0 0 0 [[(0, 0)], [(1, 1)]]).2 ≤ 256 + 1 :=
  test_bounded_samples (fun _ : Nat => 0) [[(0, 0)], [(1, 1)]] 1 256 (by decide)

/-- Claim C8: if the loader yields no batches, or only empty batches,
the running total stays `0` and the final `correct / total` raises
`ZeroDivisionError`; so `test` needs at least one yielded sample. -/
theorem test_empty_loader_zero_division {α : Type} (predict : α → Nat)
    (batches : Loader α) (test_size : Nat) (h : ∀ x ∈ batches, x = []) :
    testLoop predict test_size 0 0 0 batches = (0, 0)
    ∧ test predict batches test_size = .error .zeroDivisionError := by
  have h0 := testLoop_all_empty predict test_size batches 0 0 0 h
  refine ⟨h0, ?_⟩
  simp [test, h0]

/-- Witness for C8 at a loader of two empty batches. -/
theorem test_empty_loader_zero_division_witness :
    testLoop (fun _ : Nat => 0) 256 0 0 0 [[], []] = (0, 0)
    ∧ test (fun _ : Nat => 0) [[], []] 256 = .error .zeroDivisionError :=
  test_empty_loader_zero_division (fun _ : Nat => 0) [[], []] 256 (by decide)

/-- Claim C2: on a state whose test loader yields at least one sample
(as a `DataLoader` does: at least one batch, every yielded batch
nonempty), `step` does not raise and returns a dict whose only key is
`mean_accuracy`, whose value is the classification accuracy
`correct / total` of the bounded evaluation loop and lies in `[0, 1]`;
one `step` call reports the metric exactly once. -/
theorem step_reports_mean_accuracy {α : Type} (predict : ConvNet → α → Nat)
    (batchUpdate : ConvNet × SGD → List (α × Nat) → ConvNet × SGD)
    (s : TrainableState α) (h1 : s.test_loader ≠ [])
    (h2 : ∀ b ∈ s.test_loader, b ≠ []) :
    ∃ acc : ℚ,
      Trainable.step predict batchUpdate s =
        .ok ({ s with
               model := (train batchUpdate s.model s.optimizer s.train_loader).1,
               optimizer := (train batchUpdate s.model s.optimizer s.train_loader).2 },
             [("mean_accuracy", acc)])
      ∧ 0 ≤ acc ∧ acc ≤ 1
      ∧ acc =
          ((testLoop (predict (train batchUpdate s.model s.optimizer s.train_loader).1)
              256 0 0 0 s.test_loader).1 : ℚ)
          / ((testLoop (predict (train batchUpdate s.model s.optimizer s.train_loader).1)
              256 0 0 0 s.test_loader).2 : ℚ) := by
  obtain ⟨d, rest, hd⟩ : ∃ d rest, s.test_loader = d :: rest := by
    cases hloader : s.test_loader with
    | nil => exact absurd hloader h1
    | cons d rest => exact ⟨d, rest, rfl⟩
  have hdne : d ≠ [] := h2 d (hd ▸ List.mem_cons_self d rest)
  have hdlen : 0 < d.length := List.length_pos.mpr hdne
  have htot : ∀ p : α → Nat, 0 < (testLoop p 256 0 0 0 s.test_loader).2 := by
    intro p
    rw [hd]
    exact lt_of_lt_of_le hdlen (testLoop_head_total p 256 d rest)
  have hcle : ∀ p : α → Nat,
      (testLoop p 256 0 0 0 s.test_loader).1 ≤ (testLoop p 256 0 0 0 s.test_loader).2 :=
    fun p => testLoop_correct_le p 256 s.test_loader 0 0 0 (le_refl 0)
  refine ⟨_, ?_, ?_, ?_, rfl⟩
  · have htest : test (predict (train batchUpdate s.model s.optimizer s.train_loader).1)
        s.test_loader =
        .ok (((testLoop (predict (train batchUpdate s.model s.optimizer s.train_loader).1)
              256 0 0 0 s.test_loader).1 : ℚ)
          / ((testLoop (predict (train batchUpdate s.model s.optimizer s.train_loader).1)
              256 0 0 0 s.test_loader).2 : ℚ)) := by
      rw [test, if_neg (Nat.pos_iff_ne_zero.mp (htot _))]
    simp only [Trainable.step, htest]
  · exact div_nonneg (Nat.cast_nonneg _) (Nat.cast_nonneg _)
  · rw [div_le_one (by exact_mod_cast htot _)]
    exact_mod_cast hcle _

/-- Witness for C2 at `demoState`. -/
theorem step_reports_mean_accuracy_witness :
    ∃ acc : ℚ,
      Trainable.step (fun _ (_ : Nat) => 0) (fun ms _ => ms) demoState =
        .ok ({ demoState with
               model := (train (fun ms _ => ms) demoState.model demoState.optimizer
                   demoState.train_loader).1,
               optimizer := (train (fun ms _ => ms) demoState.model demoState.optimizer
                   demoState.train_loader).2 },
             [("mean_accuracy", acc)])
      ∧ 0 ≤ acc ∧ acc ≤ 1
      ∧ acc =
          ((testLoop ((fun _ (_ : Nat) => 0)
                (train (fun ms _ => ms) demoState.model demoState.optimizer
                  demoState.train_loader).1)
              256 0 0 0 demoState.test_loader).1 : ℚ)
          / ((testLoop ((fun _ (_ : Nat) => 0)
                (train (fun ms _ => ms) demoState.model demoState.optimizer
                  demoState.train_loader).1)
              256 0 0 0 demoState.test_loader).2 : ℚ) :=
  step_reports_mean_accuracy (fun _ (_ : Nat) => 0) (fun ms _ => ms) demoState
    (by decide) (by decide)

set_option maxRecDepth 8192 in
/-- Claim C1 (code bug): `save_checkpoint` writes the model state to
`checkpoint_dir / "checkpoint.pth"` but returns `checkpoint_dir` itself,
while `load_checkpoint` passes its argument straight to `torch.load`;
feeding `load_checkpoint` the value returned by `save_checkpoint` hits
the directory, not the file, and raises `IsADirectoryError` instead of
restoring the parameters.  The file that was written does deserialize,
and a state dict loads back into a model of identical architecture
unchanged — the round trip fails only because of the returned path. -/
theorem checkpoint_roundtrip_fails_on_returned_dir :
    Trainable.load_checkpoint demoState
        (Trainable.save_checkpoint demoState ["ckpt"] []).2
        (Trainable.save_checkpoint demoState ["ckpt"] []).1
      = .error .isADirectoryError
    ∧ torch_load ["ckpt", "checkpoint.pth"]
        (Trainable.save_checkpoint demoState ["ckpt"] []).1
      = .ok demoState.model.state_dict
    ∧ demoState.model.load_state_dict demoState.model.state_dict
      = .ok demoState.model := by
  refine ⟨?_, ?_, ?_⟩ <;> rfl

/-- Claim C7: for every checkpoint directory, `save_checkpoint` creates
exactly one file — `checkpoint.pth` inside that directory, holding the
model's parameter state dict — and leaves every other path unchanged. -/
theorem save_checkpoint_single_file {α : Type} (s : TrainableState α)
    (checkpoint_dir : FsPath) (fs : FileSys) :
    ((Trainable.save_checkpoint s checkpoint_dir fs).1).lookup
        (checkpoint_dir ++ ["checkpoint.pth"])
      = some (Blob.stateDict s.model.state_dict)
    ∧ ∀ p : FsPath, p ≠ checkpoint_dir ++ ["checkpoint.pth"] →
        ((Trainable.save_checkpoint s checkpoint_dir fs).1).lookup p = fs.lookup p := by
  constructor
  · simp [Trainable.save_checkpoint, torch_save, List.lookup]
  · intro p hp
    have hb : (p == checkpoint_dir ++ ["checkpoint.pth"]) = false :=
      beq_eq_false_iff_ne.mpr hp
    simp [Trainable.save_checkpoint, torch_save, List.lookup, hb]

/-- Witness for C7: saving `demoState` into `["ckpt"]` over an empty
filesystem creates `ckpt/checkpoint.pth` and nothing else. -/
theorem save_checkpoint_single_file_witness :
    ((Trainable.save_checkpoint demoState ["ckpt"] []).1).lookup
        ["ckpt", "checkpoint.pth"]
      = some (Blob.stateDict demoState.model.state_dict)
    ∧ ((Trainable.save_checkpoint demoState ["ckpt"] []).1).lookup ["other"]
      = ([] : FileSys).lookup ["other"] :=
  ⟨(save_checkpoint_single_file demoState ["ckpt"] []).1,
   (save_checkpoint_single_file demoState ["ckpt"] []).2 ["other"] (by decide)⟩

/-- Claim C9: in `setup`, `lr` and `momentum` are mandatory — a config
missing either raises `KeyError` — while `conf_out_channels` is
optional, read with `config.get("conf_out_channels", 3)`, and the model
is built with 3 channels when it is absent. -/
theorem setup_config_keys :
    (∀ (w : Nat → ℚ) (config : Config), config.lookup "lr" = none →
        Trainable.setup ([] : Loader Nat) [] w config = .error (.keyError "lr"))
    ∧ (∀ (w : Nat → ℚ) (config : Config) (v : PyVal),
        config.lookup "lr" = some v → config.lookup "momentum" = none →
        Trainable.setup ([] : Loader Nat) [] w config = .error (.keyError "momentum"))
    ∧ (∀ (w : Nat → ℚ) (config : Config) (a b : PyVal),
        config.lookup "lr" = some a → config.lookup "momentum" = some b →
        Trainable.setup ([] : Loader Nat) [] w config =
          .ok { train_loader := [], test_loader := [],
                model := ConvNet.init
                  ((config.lookup "conf_out_channels").getD (PyVal.int 3)).asNat w,
                optimizer := { lr := a.asRat, momentum := b.asRat } })
    ∧ (∀ (w : Nat → ℚ) (config : Config) (a b : PyVal),
        config.lookup "lr" = some a → config.lookup "momentum" = some b →
        config.lookup "conf_out_channels" = none →
        ∃ ts : TrainableState Nat,
          Trainable.setup ([] : Loader Nat) [] w config = .ok ts
          ∧ ts.model.conf_out_channels = 3) := by
  refine ⟨?_, ?_, ?_, ?_⟩
  · intro w config h
    simp [Trainable.setup, h]
  · intro w config v h1 h2
    simp [Trainable.setup, h1, h2]
  · intro w config a b h1 h2
    simp [Trainable.setup, h1, h2]
  · intro w config a b h1 h2 h3
    refine ⟨{ train_loader := [], test_loader := [],
              model := ConvNet.init
                ((config.lookup "conf_out_channels").getD (PyVal.int 3)).asNat w,
              optimizer := { lr := a.asRat, momentum := b.asRat } },
            by simp [Trainable.setup, h1, h2], ?_⟩
    simp [h3, ConvNet.init, PyVal.asNat]

/-- Witness for C9 on concrete configs: the empty config, a config with
only `lr`, and a full config with and without `conf_out_channels`. -/
theorem setup_config_keys_witness :
    Trainable.setup ([] : Loader Nat) [] (fun _ => 0) []
      = .error (.keyError "lr")
    ∧ Trainable.setup ([] : Loader Nat) [] (fun _ => 0) [("lr", PyVal.float 1)]
      = .error (.keyError "momentum")
    ∧ Trainable.setup ([] : Loader Nat) [] (fun _ => 0)
        [("lr", PyVal.float 0.02), ("momentum", PyVal.float 0.5),
         ("conf_out_channels", PyVal.int 9)]
      = .ok { train_loader := [], test_loader := [],
              model := ConvNet.init
                (((PyVal.int 9 : PyVal)).asNat) (fun _ => 0),
              optimizer := { lr := (PyVal.float 0.02).asRat,
                             momentum := (PyVal.float 0.5).asRat } }
    ∧ ∃ ts : TrainableState Nat,
        Trainable.setup ([] : Loader Nat) [] (fun _ => 0)
          [("lr", PyVal.float 0.02), ("momentum", PyVal.float 0.5)] = .ok ts
        ∧ ts.model.conf_out_channels = 3 :=
  ⟨setup_config_keys.1 (fun _ => 0) [] rfl,
   setup_config_keys.2.1 (fun _ => 0) [("lr", PyVal.float 1)] (PyVal.float 1)
     rfl rfl,
   setup_config_keys.2.2.1 (fun _ => 0)
     [("lr", PyVal.float 0.02), ("momentum", PyVal.float 0.5),
      ("conf_out_channels", PyVal.int 9)]
     (PyVal.float 0.02) (PyVal.float 0.5) rfl rfl,
   setup_config_keys.2.2.2 (fun _ => 0)
     [("lr", PyVal.float 0.02), ("momentum", PyVal.float 0.5)]
     (PyVal.float 0.02) (PyVal.float 0.5) rfl rfl rfl⟩

/-- Claim C3: `main` branches on the `--tune` flag — with the flag it
submits the search-driven run (Optuna search over `lr`, `momentum` and
`conf_out_channels`, ASHA scheduler, 30 samples); without it, the single
fixed-configuration run with `lr=1e-10`, `momentum=0.5`,
`conf_out_channels=9`. -/
theorem main_branches_on_tune_flag (gpu : Bool) (restore : Option String) (env : Env)
    (h : env.lookup "redis_password" = none) :
    main true gpu restore env =
      .ok { rayInit := none,
            run := .tuneRun [("gpu", if gpu then 1 else 0), ("cpu", 1)]
              { scheduler := { metric := "mean_accuracy", mode := .max },
                num_samples := 30,
                search_alg :=
                  { space :=
                      [ .suggest_float "lr" 1e-10 1e-1 true,
                        .suggest_float "momentum" 0.1 0.9 false,
                        .suggest_categorical "conf_out_channels" [3, 6, 9] ],
                    metric := "mean_accuracy", mode := .max,
                    restored_from := restore } }
              mainRunConfig }
    ∧ main false gpu restore env =
      .ok { rayInit := none,
            run := .singleRun
              [ ("lr", PyVal.float 1e-10), ("momentum", PyVal.float 0.5),
                ("conf_out_channels", PyVal.int 9) ]
              mainRunConfig } := by
  have hb : clusterBootstrap env = .ok none := by
    simp [clusterBootstrap, h]
  constructor
  · simp [main, hb, suggest_config]
  · simp [main, hb, train_config]

/-- Witness for C3: both branches evaluated with the GPU flag set, a
restore path, and an empty environment. -/
theorem main_branches_on_tune_flag_witness :
    main true true (some "prev") [] =
      .ok { rayInit := none,
            run := .tuneRun [("gpu", if true then 1 else 0), ("cpu", 1)]
              { scheduler := { metric := "mean_accuracy", mode := .max },
                num_samples := 30,
                search_alg :=
                  { space :=
                      [ .suggest_float "lr" 1e-10 1e-1 true,
                        .suggest_float "momentum" 0.1 0.9 false,
                        .suggest_categorical "conf_out_channels" [3, 6, 9] ],
                    metric := "mean_accuracy", mode := .max,
                    restored_from := some "prev" } }
              mainRunConfig }
    ∧ main false true (some "prev") [] =
      .ok { rayInit := none,
            run := .singleRun
              [ ("lr", PyVal.float 1e-10), ("momentum", PyVal.float 0.5),
                ("conf_out_channels", PyVal.int 9) ]
              mainRunConfig } :=
  main_branches_on_tune_flag true (some "prev") [] rfl

/-- Claim C5: `main` connects to an existing cluster iff
`redis_password` is in the environment, using `ip_head` for the address
and node ip; with `redis_password` present but `ip_head` missing, the
`KeyError` for `ip_head` propagates uncaught. -/
theorem main_cluster_bootstrap_env (do_tune gpu : Bool) (restore : Option String)
    (env : Env) :
    (env.lookup "redis_password" = none →
      ∃ tr, main do_tune gpu restore env = .ok tr ∧ tr.rayInit = none)
    ∧ (∀ pwd ip, env.lookup "redis_password" = some pwd →
        env.lookup "ip_head" = some ip →
        ∃ tr, main do_tune gpu restore env = .ok tr ∧
          tr.rayInit = some { address := ip, redis_password := pwd,
                              node_ip_address := (ip.splitOn ":").headD "" })
    ∧ (∀ pwd, env.lookup "redis_password" = some pwd →
        env.lookup "ip_head" = none →
        main do_tune gpu restore env = .error (.keyError "ip_head")) := by
  refine ⟨?_, ?_, ?_⟩
  · intro h
    have hb : clusterBootstrap env = .ok none := by
      simp [clusterBootstrap, h]
    cases do_tune with
    | false =>
      refine ⟨{ rayInit := none, run := .singleRun train_config mainRunConfig },
        ?_, rfl⟩
      simp [main, hb]
    | true =>
      refine ⟨{ rayInit := none, run := tuneRunSpec gpu restore }, ?_, rfl⟩
      simp [main, hb, tuneRunSpec]
  · intro pwd ip h1 h2
    have hb : clusterBootstrap env =
        .ok (some { address := ip, redis_password := pwd,
                    node_ip_address := (ip.splitOn ":").headD "" }) := by
      simp [clusterBootstrap, environGet, h1, h2]
    cases do_tune with
    | false =>
      refine ⟨{ rayInit := some { address := ip, redis_password := pwd,
                                  node_ip_address := (ip.splitOn ":").headD "" },
                run := .singleRun train_config mainRunConfig }, ?_, rfl⟩
      simp [main, hb]
    | true =>
      refine ⟨{ rayInit := some { address := ip, redis_password := pwd,
                                  node_ip_address := (ip.splitOn ":").headD "" },
                run := tuneRunSpec gpu restore }, ?_, rfl⟩
      simp [main, hb, tuneRunSpec]
  · intro pwd h1 h2
    have hb : clusterBootstrap env = .error (.keyError "ip_head") := by
      simp [clusterBootstrap, environGet, h1, h2]
    simp [main, hb]

/-- Witness for C5 on three concrete environments: empty, fully set, and
`redis_password` without `ip_head`. -/
theorem main_cluster_bootstrap_env_witness :
    (∃ tr, main false false none [] = .ok tr ∧ tr.rayInit = none)
    ∧ (∃ tr, main false false none
          [("redis_password", "pw"), ("ip_head", "10.0.0.1:6379")] = .ok tr ∧
        tr.rayInit = some { address := "10.0.0.1:6379", redis_password := "pw",
                            node_ip_address :=
                              ("10.0.0.1:6379".splitOn ":").headD "" })
    ∧ main false false none [("redis_password", "pw")]
      = .error (.keyError "ip_head") :=
  ⟨(main_cluster_bootstrap_env false false none []).1 rfl,
   (main_cluster_bootstrap_env false false none
      [("redis_password", "pw"), ("ip_head", "10.0.0.1:6379")]).2.1
     "pw" "10.0.0.1:6379" rfl rfl,
   (main_cluster_bootstrap_env false false none
      [("redis_password", "pw")]).2.2 "pw" rfl rfl⟩

/-- Claim C6: the stop condition `{"training_iteration": 5}` applies to
the run `main` submits in both branches, and the per-trial resource
request the script declares (in the tuning branch, via
`tune.with_resources`) is exactly 1 CPU and 1 GPU when the `--gpu` flag
is given, 0 GPUs otherwise. -/
theorem main_resources_and_stop (do_tune gpu : Bool) (restore : Option String) :
    (∃ tr, main do_tune gpu restore [] = .ok tr ∧
        tr.run.stopCondition = [("training_iteration", 5)])
    ∧ (∃ tr, main true gpu restore [] = .ok tr ∧
        tr.run.resourcesPerTrial = some [("gpu", if gpu then 1 else 0), ("cpu", 1)]) := by
  have hb : clusterBootstrap [] = .ok none := by
    simp [clusterBootstrap]
  constructor
  · cases do_tune with
    | false =>
      refine ⟨{ rayInit := none, run := .singleRun train_config mainRunConfig },
        ?_, rfl⟩
      simp [main, hb]
    | true =>
      refine ⟨{ rayInit := none, run := tuneRunSpec gpu restore }, ?_, rfl⟩
      simp [main, hb, tuneRunSpec]
  · refine ⟨{ rayInit := none, run := tuneRunSpec gpu restore }, ?_, rfl⟩
    simp [main, hb, tuneRunSpec]

/-- Claim C10: without the `--tune` flag the restore path is ignored —
two invocations of `main` differing only in `restore` behave
identically. -/
theorem restore_ignored_without_tune (gpu : Bool) (r1 r2 : Option String) (env : Env) :
    main false gpu r1 env = main false gpu r2 env := by
  cases hb : clusterBootstrap env with
  | error e => simp [main, hb]
  | ok ri => simp [main, hb]

end RayTuneSlurmDemo
